import Mathlib

/-!
Shallow embedding of the photo-collage composition engine.

The definitions below are translated from the TypeScript sources:
* `CollageProvider` (state container: image list + settings, the
  `addImages` / `removeImage` / `clearImages` / `reorderImages` /
  `shuffleImages` / `updateSettings` / `setImageFocus` updaters),
* `useCollageRenderer.ts` (`computeCoverCrop`, `roundedRect`, the per-cell
  render-loop geometry),
* `ControlsPanel.tsx` (`handlePointerMove` focal-point drag),
* `layouts.ts` / `settings.ts` (static catalogs and constants).

Numbers are modelled as rationals (`ℚ`); JavaScript `Math.round` is
modelled as `roundJS` (floor of x + 1/2, which matches `Math.round`'s
half-toward-positive-infinity behaviour). Resource release
(`releaseImage`: closing the decoded bitmap and revoking the preview URL)
is modelled by returning, next to the new state, the list of images whose
resources the updater released.
-/

namespace Collage

/-- Translation of `clamp01` (CollageProvider.tsx / ControlsPanel.tsx):
`Math.min(1, Math.max(0, value))`. -/
def clamp01 (value : ℚ) : ℚ := min 1 (max 0 value)

/-- Translation of the `CollageImage` record (types.ts), keeping the fields
the state-machine claims depend on: identity, natural size and focus.
The opaque resource handles (`file`, `previewUrl`, `imageBitmap`) carry no
algorithmic content; releasing them is modelled at the operation level. -/
structure CollageImage where
  id : String
  width : ℚ
  height : ℚ
  focusX : ℚ
  focusY : ℚ
deriving DecidableEq

/-- Translation of the `CollageSettings` record (types.ts). -/
structure CollageSettings where
  layoutId : String
  aspectRatioId : String
  gutter : ℚ
  cornerRadius : ℚ
  backgroundColor : String
deriving DecidableEq

/-- Translation of `Partial<CollageSettings>` as used by `updateSettings`:
each field optionally present; an absent field keeps the previous value. -/
structure SettingsPatch where
  layoutId : Option String := none
  aspectRatioId : Option String := none
  gutter : Option ℚ := none
  cornerRadius : Option ℚ := none
  backgroundColor : Option String := none
deriving DecidableEq

/-- Translation of `LayoutCell` (types.ts): a normalized rectangle. -/
structure LayoutCell where
  x : ℚ
  y : ℚ
  width : ℚ
  height : ℚ
deriving DecidableEq

/-- Translation of `CollageLayout` (types.ts). -/
structure CollageLayout where
  id : String
  name : String
  maxImages : ℕ
  cells : List LayoutCell
deriving DecidableEq

/-- Translation of the `mosaic` entry of `COLLAGE_LAYOUTS` (layouts.ts). -/
def mosaicLayout : CollageLayout :=
  { id := "mosaic", name := "Mosaic", maxImages := 5,
    cells :=
      [ { x := 0, y := 0, width := 6/10, height := 6/10 },
        { x := 6/10, y := 0, width := 4/10, height := 35/100 },
        { x := 6/10, y := 35/100, width := 4/10, height := 65/100 },
        { x := 0, y := 6/10, width := 35/100, height := 4/10 },
        { x := 35/100, y := 6/10, width := 25/100, height := 4/10 } ] }

/-- Translation of the `COLLAGE_LAYOUTS` record (layouts.ts) as an
association list keyed by the layout id. -/
def COLLAGE_LAYOUTS : List (String × CollageLayout) :=
  [ ("two-up",
      { id := "two-up", name := "Split", maxImages := 2,
        cells :=
          [ { x := 0, y := 0, width := 1/2, height := 1 },
            { x := 1/2, y := 0, width := 1/2, height := 1 } ] }),
    ("two-stack",
      { id := "two-stack", name := "Top/Bottom", maxImages := 2,
        cells :=
          [ { x := 0, y := 0, width := 1, height := 1/2 },
            { x := 0, y := 1/2, width := 1, height := 1/2 } ] }),
    ("three-stack",
      { id := "three-stack", name := "Stack", maxImages := 3,
        cells :=
          [ { x := 0, y := 0, width := 1, height := 1/3 },
            { x := 0, y := 1/3, width := 1, height := 1/3 },
            { x := 0, y := 2/3, width := 1, height := 1/3 } ] }),
    ("three-column",
      { id := "three-column", name := "Columns", maxImages := 3,
        cells :=
          [ { x := 0, y := 0, width := 1/3, height := 1 },
            { x := 1/3, y := 0, width := 1/3, height := 1 },
            { x := 2/3, y := 0, width := 1/3, height := 1 } ] }),
    ("grid-2x2",
      { id := "grid-2x2", name := "Grid", maxImages := 4,
        cells :=
          [ { x := 0, y := 0, width := 1/2, height := 1/2 },
            { x := 1/2, y := 0, width := 1/2, height := 1/2 },
            { x := 0, y := 1/2, width := 1/2, height := 1/2 },
            { x := 1/2, y := 1/2, width := 1/2, height := 1/2 } ] }),
    ("feature-left",
      { id := "feature-left", name := "Feature Left", maxImages := 3,
        cells :=
          [ { x := 0, y := 0, width := 6/10, height := 1 },
            { x := 6/10, y := 0, width := 4/10, height := 1/2 },
            { x := 6/10, y := 1/2, width := 4/10, height := 1/2 } ] }),
    ("featured-center",
      { id := "featured-center", name := "Centerpiece", maxImages := 5,
        cells :=
          [ { x := 2/10, y := 2/10, width := 6/10, height := 6/10 },
            { x := 2/10, y := 0, width := 6/10, height := 2/10 },
            { x := 2/10, y := 8/10, width := 6/10, height := 2/10 },
            { x := 0, y := 2/10, width := 2/10, height := 6/10 },
            { x := 8/10, y := 2/10, width := 2/10, height := 6/10 } ] }),
    ("mosaic", mosaicLayout) ]

/-- Translation of `DEFAULT_LAYOUT_ID` (layouts.ts). -/
def DEFAULT_LAYOUT_ID : String := "mosaic"

/-- Translation of `MAX_IMAGES` (settings.ts). -/
def MAX_IMAGES : ℕ := 5

/-- Translation of `DEFAULT_SETTINGS` (settings.ts). -/
def DEFAULT_SETTINGS : CollageSettings :=
  { layoutId := DEFAULT_LAYOUT_ID, aspectRatioId := "4:5",
    gutter := 16, cornerRadius := 24, backgroundColor := "#ffffff" }

/-- Translation of the layout lookup
`COLLAGE_LAYOUTS[settings.layoutId] ?? COLLAGE_LAYOUTS[DEFAULT_LAYOUT_ID]`
(CollageProvider.tsx): an unknown id falls back to the default (mosaic)
layout. -/
def getLayout (layoutId : String) : CollageLayout :=
  (COLLAGE_LAYOUTS.lookup layoutId).getD mosaicLayout

/-- Translation of the provider state: active image list plus settings. -/
structure CollageState where
  images : List CollageImage
  settings : CollageSettings
deriving DecidableEq

/-- Translation of `{ ...prev.settings, ...partial }` inside
`updateSettings`: replace-merge of the optional fields. -/
def mergeSettings (prev : CollageSettings) (p : SettingsPatch) : CollageSettings :=
  { layoutId := p.layoutId.getD prev.layoutId,
    aspectRatioId := p.aspectRatioId.getD prev.aspectRatioId,
    gutter := p.gutter.getD prev.gutter,
    cornerRadius := p.cornerRadius.getD prev.cornerRadius,
    backgroundColor := p.backgroundColor.getD prev.backgroundColor }

/-- Translation of `Math.min(MAX_IMAGES, layout.maxImages)` as computed in
`addImages` and `updateSettings` (CollageProvider.tsx). -/
def maxAllowed (layoutId : String) : ℕ :=
  min MAX_IMAGES (getLayout layoutId).maxImages

/-- Translation of the `addImages` state update (CollageProvider.tsx),
taking the list of successfully prepared images. Returns the new state and
the list of images whose resources were released (`releaseImage` calls).
Note the code releases the prepared images only in the `availableSlots <= 0`
branch; when `0 < availableSlots < successful.length` the trailing prepared
images are dropped without a `releaseImage` call. -/
def addImagesUpdate (successful : List CollageImage) (prev : CollageState) :
    CollageState × List CollageImage :=
  if successful.length = 0 then (prev, [])
  else
    let availableSlots := maxAllowed prev.settings.layoutId - prev.images.length
    if availableSlots = 0 then (prev, successful)
    else
      ({ prev with images := prev.images ++ successful.take availableSlots }, [])

/-- Translation of the `removeImage` state update (CollageProvider.tsx). -/
def removeImageUpdate (targetId : String) (prev : CollageState) :
    CollageState × List CollageImage :=
  match prev.images.find? (fun image => image.id == targetId) with
  | none => (prev, [])
  | some target =>
      ({ prev with images := prev.images.filter (fun image => image.id != targetId) },
       [target])

/-- Translation of the `clearImages` state update (CollageProvider.tsx). -/
def clearImagesUpdate (prev : CollageState) : CollageState × List CollageImage :=
  ({ prev with images := [] }, prev.images)

/-- Translation of the `reorderImages` state update (CollageProvider.tsx):
no-op when the indices coincide or either is out of bounds, otherwise
`splice` the element out at `fromIndex` and back in at `toIndex`. -/
def reorderImagesUpdate (fromIndex toIndex : ℤ) (prev : CollageState) :
    CollageState × List CollageImage :=
  if fromIndex = toIndex then (prev, [])
  else if fromIndex < 0 ∨ (prev.images.length : ℤ) ≤ fromIndex then (prev, [])
  else if toIndex < 0 ∨ (prev.images.length : ℤ) ≤ toIndex then (prev, [])
  else
    match prev.images[fromIndex.toNat]? with
    | none => (prev, [])
    | some moved =>
        ({ prev with
            images := (prev.images.eraseIdx fromIndex.toNat).insertIdx toIndex.toNat moved },
         [])

/-- Swap of two positions of a list, total on out-of-range indices; used to
model the destructuring swap inside the Fisher-Yates loop. -/
def swapList {α : Type} (l : List α) (i j : ℕ) : List α :=
  match l[i]?, l[j]? with
  | some a, some b => (l.set i b).set j a
  | _, _ => l

/-- Translation of the Fisher-Yates loop of `shuffleImages`
(CollageProvider.tsx): `js i` supplies the random index drawn at loop
counter `i` (`Math.floor(Math.random() * (i + 1))`); the loop runs from
`length - 1` down to `1`. -/
def fisherYates {α : Type} (js : ℕ → ℕ) : List α → ℕ → List α
  | l, 0 => l
  | l, i + 1 => fisherYates js (swapList l (i + 1) (js (i + 1))) i

/-- Translation of the `shuffleImages` state update (CollageProvider.tsx),
parameterized by the sequence of random indices. -/
def shuffleImagesUpdate (js : ℕ → ℕ) (prev : CollageState) :
    CollageState × List CollageImage :=
  if prev.images.length ≤ 1 then (prev, [])
  else ({ prev with images := fisherYates js prev.images (prev.images.length - 1) }, [])

/-- Translation of the `updateSettings` state update (CollageProvider.tsx):
merge the patch, re-resolve the layout, and when the image list exceeds the
new capacity release the trailing images and truncate. -/
def updateSettingsUpdate (p : SettingsPatch) (prev : CollageState) :
    CollageState × List CollageImage :=
  let nextSettings := mergeSettings prev.settings p
  if maxAllowed nextSettings.layoutId < prev.images.length then
    ({ images := prev.images.take (maxAllowed nextSettings.layoutId),
       settings := nextSettings },
     prev.images.drop (maxAllowed nextSettings.layoutId))
  else
    ({ prev with settings := nextSettings }, [])

/-- Translation of the `setImageFocus` state update (CollageProvider.tsx):
clamp each supplied axis into [0,1], keep an unsupplied axis, return the
previous state unchanged when nothing would change or the id is unknown. -/
def setImageFocusUpdate (targetId : String) (fx fy : Option ℚ)
    (prev : CollageState) : CollageState :=
  if fx.isNone && fy.isNone then prev
  else
    let i := prev.images.findIdx (fun image => image.id == targetId)
    match prev.images[i]? with
    | none => prev
    | some target =>
        let nextImage : CollageImage :=
          { target with
            focusX := match fx with | none => target.focusX | some v => clamp01 v
            focusY := match fy with | none => target.focusY | some v => clamp01 v }
        if nextImage.focusX = target.focusX ∧ nextImage.focusY = target.focusY then prev
        else { prev with images := prev.images.set i nextImage }

/-- Translation of the drag state captured by `handlePointerDown`
(ControlsPanel.tsx): the image's id and focus at drag start, the slot's
on-screen pixel size and the image's natural size. -/
structure DragState where
  imageId : String
  startFocusX : ℚ
  startFocusY : ℚ
  slotWidth : ℚ
  slotHeight : ℚ
  imageWidth : ℚ
  imageHeight : ℚ
deriving DecidableEq

/-- Translation of the `scale` computed by `handlePointerMove`
(ControlsPanel.tsx): `max(slotWidth / imageWidth, slotHeight / imageHeight)`. -/
def dragScale (st : DragState) : ℚ :=
  max (st.slotWidth / st.imageWidth) (st.slotHeight / st.imageHeight)

/-- Translation of `overflowX = Math.max(0, imageWidth * scale - slotWidth)`
(ControlsPanel.tsx). -/
def overflowX (st : DragState) : ℚ :=
  max 0 (st.imageWidth * dragScale st - st.slotWidth)

/-- Translation of `overflowY = Math.max(0, imageHeight * scale - slotHeight)`
(ControlsPanel.tsx). -/
def overflowY (st : DragState) : ℚ :=
  max 0 (st.imageHeight * dragScale st - st.slotHeight)

/-- Translation of `handlePointerMove` (ControlsPanel.tsx): on each axis
with strictly positive overflow, propose `clamp01(startFocus + delta /
overflow)`; call `setImageFocus` only when at least one axis is updated. -/
def handlePointerMove (st : DragState) (deltaX deltaY : ℚ)
    (prev : CollageState) : CollageState :=
  let fx : Option ℚ :=
    if 0 < overflowX st then some (clamp01 (st.startFocusX + deltaX / overflowX st))
    else none
  let fy : Option ℚ :=
    if 0 < overflowY st then some (clamp01 (st.startFocusY + deltaY / overflowY st))
    else none
  if fx.isSome || fy.isSome then setImageFocusUpdate st.imageId fx fy prev else prev

/-- Statement of claim C7 about one `setImageFocus` call: the stored focus
of the targeted image ends up in `[0, 1]` on both axes, and an axis whose
update is absent keeps its previous value. -/
def setFocusClaim (fx fy : Option ℚ) (target result : CollageImage) : Prop :=
  (0 ≤ result.focusX ∧ result.focusX ≤ 1) ∧
  (0 ≤ result.focusY ∧ result.focusY ≤ 1) ∧
  (fx = none → result.focusX = target.focusX) ∧
  (fy = none → result.focusY = target.focusY)

/-- Statement of claim C6 about one pointer-move of a focal-point drag: on
an axis with strictly positive overflow the stored focus becomes
`clamp01(startFocus + delta / overflow)`, on an axis with zero overflow it
is unchanged, and when both overflows are zero any sequence of drag deltas
leaves the state untouched. -/
def pointerMoveClaim (st : DragState) (deltaX deltaY : ℚ) (prev : CollageState)
    (target result : CollageImage) : Prop :=
  (0 < overflowX st → result.focusX = clamp01 (st.startFocusX + deltaX / overflowX st)) ∧
  (overflowX st = 0 → result.focusX = target.focusX) ∧
  (0 < overflowY st → result.focusY = clamp01 (st.startFocusY + deltaY / overflowY st)) ∧
  (overflowY st = 0 → result.focusY = target.focusY) ∧
  (overflowX st = 0 → overflowY st = 0 →
    ∀ deltas : List (ℚ × ℚ),
      deltas.foldl (fun s d => handlePointerMove st d.1 d.2 s) prev = prev)

/-- Result of `computeCoverCrop` (useCollageRenderer.ts): source-space
offset `(sx, sy)` and crop size `(sw, sh)`. -/
structure CoverCrop where
  sx : ℚ
  sy : ℚ
  sw : ℚ
  sh : ℚ
deriving DecidableEq

/-- Translation of `computeCoverCrop` (useCollageRenderer.ts). -/
def computeCoverCrop (sourceWidth sourceHeight targetWidth targetHeight
    focusX focusY : ℚ) : CoverCrop :=
  let scale := max (targetWidth / sourceWidth) (targetHeight / sourceHeight)
  let cropWidth := targetWidth / scale
  let cropHeight := targetHeight / scale
  let maxOffsetX := max 0 (sourceWidth - cropWidth)
  let maxOffsetY := max 0 (sourceHeight - cropHeight)
  { sx := maxOffsetX * min 1 (max 0 focusX),
    sy := maxOffsetY * min 1 (max 0 focusY),
    sw := cropWidth,
    sh := cropHeight }

/-- JavaScript `Math.round`: floor of `x + 1/2` (halves round toward
positive infinity). -/
def roundJS (q : ℚ) : ℤ := ⌊q + 1/2⌋

/-- Translation of
`Math.max(settings.cornerRadius - gutter / 2, 0)` (useCollageRenderer.ts,
`renderCollage`). -/
def effectiveCornerRadius (cornerRadius gutter : ℚ) : ℚ :=
  max (cornerRadius - gutter / 2) 0

/-- Translation of the radius clamp at the top of `roundedRect`
(useCollageRenderer.ts):
`Math.max(0, Math.min(radius, Math.min(width, height) / 2))`. -/
def roundedRectRadius (width height radius : ℚ) : ℚ :=
  max 0 (min radius (min width height / 2))

/-- Outcome of one iteration of the per-cell render loop of `renderCollage`
(useCollageRenderer.ts): skipped because no image (or unknown natural
size), skipped by the `destWidth <= 0 || destHeight <= 0` guard, or drawn
with the given destination rectangle, clip radius, and cover crop. -/
inductive CellStep where
  | skippedNoImage : CellStep
  | skippedZeroSize : CellStep
  | drawn (destX destY destWidth destHeight : ℤ) (clipRadius : ℚ)
      (crop : CoverCrop) : CellStep
deriving DecidableEq

/-- True exactly on the `drawn` outcome. -/
def CellStep.isDrawn : CellStep → Bool
  | .drawn _ _ _ _ _ _ => true
  | _ => false

/-- For a drawn cell, both destination dimensions are at least 1 pixel;
trivially true on skipped cells. -/
def drawnDimsAtLeastOne : CellStep → Prop
  | .drawn _ _ destWidth destHeight _ _ => 1 ≤ destWidth ∧ 1 ≤ destHeight
  | _ => True

/-- Translation of one iteration of the per-cell loop of `renderCollage`
(useCollageRenderer.ts): the image-presence guard
`if (!image || !image.width || !image.height) continue`, the destination
rectangle `Math.max(1, Math.round(cell.* × target - gutter))` inset by
`gutter / 2`, the `destWidth <= 0 || destHeight <= 0` guard, and the cover
crop plus rounded-clip radius used for compositing. -/
def processCell (cell : LayoutCell) (image : Option CollageImage)
    (width height gutter cornerRadius : ℚ) : CellStep :=
  match image with
  | none => .skippedNoImage
  | some img =>
      if img.width = 0 ∨ img.height = 0 then .skippedNoImage
      else
        let destWidth : ℤ := max 1 (roundJS (cell.width * width - gutter))
        let destHeight : ℤ := max 1 (roundJS (cell.height * height - gutter))
        if destWidth ≤ 0 ∨ destHeight ≤ 0 then .skippedZeroSize
        else
          .drawn (roundJS (cell.x * width + gutter / 2))
            (roundJS (cell.y * height + gutter / 2))
            destWidth destHeight
            (effectiveCornerRadius cornerRadius gutter)
            (computeCoverCrop img.width img.height (destWidth : ℚ)
              (destHeight : ℚ) img.focusX img.focusY)

/-- The provider operations a user can drive the state with. -/
inductive CollageOp where
  | add (successful : List CollageImage) : CollageOp
  | remove (targetId : String) : CollageOp
  | clear : CollageOp
  | reorder (fromIndex toIndex : ℤ) : CollageOp
  | shuffle (js : ℕ → ℕ) : CollageOp
  | update (p : SettingsPatch) : CollageOp
  | setFocus (targetId : String) (fx fy : Option ℚ) : CollageOp

/-- Dispatch one operation, returning the new state and the images whose
resources the operation released. -/
def applyOp : CollageOp → CollageState → CollageState × List CollageImage
  | .add successful, s => addImagesUpdate successful s
  | .remove targetId, s => removeImageUpdate targetId s
  | .clear, s => clearImagesUpdate s
  | .reorder fromIndex toIndex, s => reorderImagesUpdate fromIndex toIndex s
  | .shuffle js, s => shuffleImagesUpdate js s
  | .update p, s => updateSettingsUpdate p s
  | .setFocus targetId fx fy, s => (setImageFocusUpdate targetId fx fy s, [])

/-- Run a sequence of operations from a starting state. -/
def applyOps (ops : List CollageOp) (s : CollageState) : CollageState :=
  ops.foldl (fun st op => (applyOp op st).1) s

/-- The provider's initial state: empty image list plus the stored
settings. -/
def initState (settings : CollageSettings) : CollageState :=
  { images := [], settings := settings }

end Collage

namespace Collage

section Helpers

lemma clamp01_nonneg (v : ℚ) : 0 ≤ clamp01 v :=
  le_min zero_le_one (le_max_left 0 v)

lemma clamp01_le_one (v : ℚ) : clamp01 v ≤ 1 :=
  min_le_left 1 (max 0 v)

lemma clamp01_idem (v : ℚ) : clamp01 (clamp01 v) = clamp01 v := by
  unfold clamp01
  rw [max_eq_right (le_min zero_le_one (le_max_left 0 v)), ← min_assoc, min_self]

end Helpers

/-- C1: for positive source size `(sw, sh)`, positive destination size
`(dw, dh)` and focal point `(fx, fy)` in the unit square, the cover crop of
`computeCoverCrop` scales uniformly (`cw / dw = ch / dh`) and its offset
keeps the crop window inside the source bounds
(`0 ≤ sx ≤ sw - cw` and `0 ≤ sy ≤ sh - ch`). -/
theorem coverCrop_uniform_and_bounded (sw sh dw dh fx fy : ℚ)
    (hsw : 0 < sw) (hsh : 0 < sh) (hdw : 0 < dw) (hdh : 0 < dh)
    (hfx0 : 0 ≤ fx) (hfx1 : fx ≤ 1) (hfy0 : 0 ≤ fy) (hfy1 : fy ≤ 1) :
    (computeCoverCrop sw sh dw dh fx fy).sw / dw
        = (computeCoverCrop sw sh dw dh fx fy).sh / dh ∧
    0 ≤ (computeCoverCrop sw sh dw dh fx fy).sx ∧
    (computeCoverCrop sw sh dw dh fx fy).sx
        ≤ sw - (computeCoverCrop sw sh dw dh fx fy).sw ∧
    0 ≤ (computeCoverCrop sw sh dw dh fx fy).sy ∧
    (computeCoverCrop sw sh dw dh fx fy).sy
        ≤ sh - (computeCoverCrop sw sh dw dh fx fy).sh := by
  have hs : 0 < max (dw / sw) (dh / sh) :=
    lt_of_lt_of_le (div_pos hdw hsw) (le_max_left _ _)
  simp only [computeCoverCrop]
  set s := max (dw / sw) (dh / sh) with hs_def
  have hcw : dw / s ≤ sw := by
    rw [div_le_iff hs]
    have h1 : dw / sw ≤ s := hs_def ▸ le_max_left _ _
    have h2 : dw ≤ s * sw := by
      have := (div_le_iff hsw).mp h1
      linarith [mul_comm s sw]
    linarith [mul_comm s sw]
  have hch : dh / s ≤ sh := by
    rw [div_le_iff hs]
    have h1 : dh / sh ≤ s := hs_def ▸ le_max_right _ _
    have h2 : dh ≤ s * sh := by
      have := (div_le_iff hsh).mp h1
      linarith [mul_comm s sh]
    linarith [mul_comm s sh]
  have hmx : max 0 (sw - dw / s) = sw - dw / s := max_eq_right (by linarith)
  have hmy : max 0 (sh - dh / s) = sh - dh / s := max_eq_right (by linarith)
  have hcx0 : 0 ≤ min 1 (max 0 fx) := le_min zero_le_one (le_max_left 0 fx)
  have hcx1 : min 1 (max 0 fx) ≤ 1 := min_le_left _ _
  have hcy0 : 0 ≤ min 1 (max 0 fy) := le_min zero_le_one (le_max_left 0 fy)
  have hcy1 : min 1 (max 0 fy) ≤ 1 := min_le_left _ _
  refine ⟨?_, ?_, ?_, ?_, ?_⟩
  · field_simp
    ring
  · rw [hmx]
    exact mul_nonneg (by linarith) hcx0
  · rw [hmx]
    exact mul_le_of_le_one_right (by linarith) hcx1
  · rw [hmy]
    exact mul_nonneg (by linarith) hcy0
  · rw [hmy]
    exact mul_le_of_le_one_right (by linarith) hcy1

/-- Witness for C1 at the concrete input
`sw = 4, sh = 3, dw = 2, dh = 2, fx = fy = 1/2`. -/
theorem coverCrop_uniform_and_bounded_witness :
    ((0:ℚ) < 4 ∧ (0:ℚ) < 3 ∧ (0:ℚ) < 2 ∧ (0:ℚ) ≤ 1/2 ∧ (1/2:ℚ) ≤ 1) ∧
    ((computeCoverCrop 4 3 2 2 (1/2) (1/2)).sw / 2
        = (computeCoverCrop 4 3 2 2 (1/2) (1/2)).sh / 2 ∧
      0 ≤ (computeCoverCrop 4 3 2 2 (1/2) (1/2)).sx ∧
      (computeCoverCrop 4 3 2 2 (1/2) (1/2)).sx
          ≤ 4 - (computeCoverCrop 4 3 2 2 (1/2) (1/2)).sw ∧
      0 ≤ (computeCoverCrop 4 3 2 2 (1/2) (1/2)).sy ∧
      (computeCoverCrop 4 3 2 2 (1/2) (1/2)).sy
          ≤ 3 - (computeCoverCrop 4 3 2 2 (1/2) (1/2)).sh) :=
  ⟨by norm_num,
   coverCrop_uniform_and_bounded 4 3 2 2 (1/2) (1/2) (by norm_num) (by norm_num)
     (by norm_num) (by norm_num) (by norm_num) (by norm_num) (by norm_num) (by norm_num)⟩

/-- C9: for rectangle dimensions (nonnegative width and height) and any
requested radius, the radius actually used by `roundedRect` is at most half
of the smaller of width and height. -/
theorem roundedRectRadius_le_half_min (width height radius : ℚ)
    (hw : 0 ≤ width) (hh : 0 ≤ height) :
    roundedRectRadius width height radius ≤ min width height / 2 := by
  have h0 : (0:ℚ) ≤ min width height / 2 := by
    have := le_min hw hh
    linarith
  exact max_le h0 (min_le_right _ _)

/-- Witness for C9 at the concrete input
`width = 3, height = 5, radius = 10`. -/
theorem roundedRectRadius_le_half_min_witness :
    ((0:ℚ) ≤ 3 ∧ (0:ℚ) ≤ 5) ∧ roundedRectRadius 3 5 10 ≤ min 3 5 / 2 :=
  ⟨by norm_num, roundedRectRadius_le_half_min 3 5 10 (by norm_num) (by norm_num)⟩

/-- C5: every cell the render loop draws is clipped with radius
`max(cornerRadius - gutter / 2, 0)`; in particular the effective radius is
`16` for `gutter = 16, cornerRadius = 24`, and equals `cornerRadius`
unchanged for `gutter = 0` and nonnegative `cornerRadius`. -/
theorem clip_radius_formula :
    (∀ (cell : LayoutCell) (image : Option CollageImage) (w h g cr : ℚ)
        (dX dY dW dH : ℤ) (r : ℚ) (crop : CoverCrop),
        processCell cell image w h g cr = CellStep.drawn dX dY dW dH r crop →
        r = max (cr - g / 2) 0) ∧
    effectiveCornerRadius 24 16 = 16 ∧
    (∀ cr : ℚ, 0 ≤ cr → effectiveCornerRadius cr 0 = cr) := by
  refine ⟨?_, ?_, ?_⟩
  · intro cell image w h g cr dX dY dW dH r crop hstep
    rcases image with _ | img
    · simp [processCell] at hstep
    · simp only [processCell] at hstep
      split_ifs at hstep
      · injection hstep with h1 h2 h3 h4 h5 h6
        rw [← h5, effectiveCornerRadius]
  · rw [effectiveCornerRadius]
    norm_num
  · intro cr hcr
    rw [effectiveCornerRadius]
    norm_num [max_eq_left hcr]

/-- Witness for C5: a concretely drawn cell (full-frame cell, 100 times 100
image, 1000 times 1000 target, `gutter = 16`, `cornerRadius = 24`) is
clipped with radius `16 = max(24 - 16/2, 0)`, and
`effectiveCornerRadius 5 0 = 5`. -/
theorem clip_radius_formula_witness :
    (16 : ℚ) = max (24 - 16 / 2) 0 ∧ effectiveCornerRadius 5 0 = 5 :=
  ⟨clip_radius_formula.1 ⟨0, 0, 1, 1⟩ (some ⟨"a", 100, 100, 1/2, 1/2⟩)
      1000 1000 16 24 8 8 984 984 16 ⟨0, 0, 100, 100⟩ (by
        norm_num [processCell, roundJS, effectiveCornerRadius, computeCoverCrop]),
   clip_radius_formula.2.2 5 (by norm_num)⟩

/-- Counterexample to C3 as stated: for the cell
`(x, y, w, h) = (0, 0, 1/100, 1)` at target size 1000 times 1000 with
`gutter = 16`, the destination width rounds to `-6 ≤ 0`, yet the cell is
not skipped: the render loop clamps the width to 1 pixel and draws it. -/
theorem cell_rounds_nonpositive_yet_drawn :
    roundJS ((1/100 : ℚ) * 1000 - 16) ≤ 0 ∧
    (processCell ⟨0, 0, 1/100, 1⟩ (some ⟨"a", 100, 100, 1/2, 1/2⟩)
        1000 1000 16 24).isDrawn = true := by
  constructor
  · norm_num [roundJS]
  · norm_num [processCell, roundJS, CellStep.isDrawn]

/-- C3 amended: the loop clamps both destination dimensions to at least 1
pixel before the `≤ 0` test, so the size-skip branch is unreachable — no
cell is ever skipped for rounding to a nonpositive size, and every drawn
cell has destination width and height at least 1. -/
theorem processCell_size_skip_unreachable (cell : LayoutCell)
    (image : Option CollageImage) (w h g cr : ℚ) :
    processCell cell image w h g cr ≠ CellStep.skippedZeroSize ∧
    drawnDimsAtLeastOne (processCell cell image w h g cr) := by
  rcases image with _ | img
  · simp [processCell, drawnDimsAtLeastOne]
  · have h1 : (1:ℤ) ≤ max 1 (roundJS (cell.width * w - g)) := le_max_left _ _
    have h2 : (1:ℤ) ≤ max 1 (roundJS (cell.height * h - g)) := le_max_left _ _
    simp only [processCell]
    split_ifs with hz hneg
    · simp [drawnDimsAtLeastOne]
    · rcases hneg with hneg | hneg <;> omega
    · exact ⟨by simp, ⟨h1, h2⟩⟩

/-- Witness for the amended C3 at a concrete cell: the narrow cell from the
counterexample is still processed to a drawn step, never to the size-skip. -/
theorem processCell_size_skip_unreachable_witness :
    processCell ⟨0, 0, 1/100, 1⟩ (some ⟨"a", 100, 100, 1/2, 1/2⟩)
        1000 1000 16 24 ≠ CellStep.skippedZeroSize ∧
    drawnDimsAtLeastOne (processCell ⟨0, 0, 1/100, 1⟩
        (some ⟨"a", 100, 100, 1/2, 1/2⟩) 1000 1000 16 24) :=
  processCell_size_skip_unreachable ⟨0, 0, 1/100, 1⟩
    (some ⟨"a", 100, 100, 1/2, 1/2⟩) 1000 1000 16 24

end Collage

namespace Collage

section StateHelpers

lemma length_swapList {α : Type} (l : List α) (i j : ℕ) :
    (swapList l i j).length = l.length := by
  unfold swapList
  split
  · simp [List.length_set]
  · rfl

lemma length_fisherYates {α : Type} (js : ℕ → ℕ) (i : ℕ) :
    ∀ l : List α, (fisherYates js l i).length = l.length := by
  induction i with
  | zero => intro l; rfl
  | succ i ih =>
      intro l
      rw [fisherYates, ih, length_swapList]

lemma length_eraseIdx_insertIdx {α : Type} (l : List α) (a : α) (i t : ℕ)
    (hi : i < l.length) (ht : t < l.length) :
    ((l.eraseIdx i).insertIdx t a).length = l.length := by
  have h1 : (l.eraseIdx i).length + 1 = l.length := List.length_eraseIdx_add_one hi
  rw [List.length_insertIdx _ _ (by omega)]
  omega

lemma applyOp_capacity (op : CollageOp) (s : CollageState)
    (h : s.images.length ≤ maxAllowed s.settings.layoutId) :
    (applyOp op s).1.images.length ≤ maxAllowed (applyOp op s).1.settings.layoutId := by
  cases op with
  | add successful =>
      simp only [applyOp, addImagesUpdate]
      split_ifs with h0 h1
      · exact h
      · exact h
      · simp only [List.length_append, List.length_take]
        omega
  | remove targetId =>
      simp only [applyOp, removeImageUpdate]
      split
      · exact h
      · exact le_trans (List.length_filter_le _ _) h
  | clear =>
      simpa [applyOp, clearImagesUpdate] using Nat.zero_le _
  | reorder fromIndex toIndex =>
      simp only [applyOp, reorderImagesUpdate]
      split_ifs with h1 h2 h3
      · exact h
      · exact h
      · exact h
      · split
        · exact h
        · push_neg at h2 h3
          simp only []
          rw [length_eraseIdx_insertIdx _ _ _ _ (by omega) (by omega)]
          exact h
  | shuffle js =>
      simp only [applyOp, shuffleImagesUpdate]
      split_ifs with h1
      · exact h
      · simpa [length_fisherYates] using h
  | update p =>
      simp only [applyOp, updateSettingsUpdate]
      split_ifs with h1
      · simp only [List.length_take]
        omega
      · simpa using Nat.le_of_not_lt h1
  | setFocus targetId fx fy =>
      simp only [applyOp, setImageFocusUpdate]
      split_ifs with h1
      · exact h
      · split
        · exact h
        · split_ifs with h2
          · exact h
          · simpa [List.length_set] using h

end StateHelpers

/-- C2: starting from the empty image list with any stored settings, every
sequence of add / remove / clear / reorder / shuffle / update-settings /
set-focus operations leaves the state satisfying
`images.length ≤ min(MAX_IMAGES, currentLayout.maxImages)`, where the
current layout is looked up from `settings.layoutId` with fallback to the
default layout. -/
theorem capacity_invariant (ops : List CollageOp) (s0 : CollageSettings) :
    (applyOps ops (initState s0)).images.length ≤
      min MAX_IMAGES (getLayout (applyOps ops (initState s0)).settings.layoutId).maxImages := by
  have gen : ∀ (ops : List CollageOp) (s : CollageState),
      s.images.length ≤ maxAllowed s.settings.layoutId →
      (applyOps ops s).images.length ≤ maxAllowed (applyOps ops s).settings.layoutId := by
    intro ops
    induction ops with
    | nil => intro s h; exact h
    | cons op rest ih =>
        intro s h
        exact ih ((applyOp op s).1) (applyOp_capacity op s h)
  have h0 : (initState s0).images.length ≤ maxAllowed (initState s0).settings.layoutId :=
    Nat.zero_le _
  simpa [maxAllowed] using gen ops (initState s0) h0

/-- Witness-style instance of C2 on a concrete operation sequence: add two
images on the default (5-slot) layout, switch to the 2-slot `two-up`
layout, then add two more. -/
theorem capacity_invariant_witness :
    (applyOps
        [CollageOp.add [⟨"a", 30, 20, 0, 0⟩, ⟨"b", 30, 20, 0, 0⟩],
         CollageOp.update { layoutId := some "two-up" },
         CollageOp.add [⟨"c", 30, 20, 0, 0⟩, ⟨"d", 30, 20, 0, 0⟩]]
        (initState DEFAULT_SETTINGS)).images.length ≤
      min MAX_IMAGES
        (getLayout (applyOps
          [CollageOp.add [⟨"a", 30, 20, 0, 0⟩, ⟨"b", 30, 20, 0, 0⟩],
           CollageOp.update { layoutId := some "two-up" },
           CollageOp.add [⟨"c", 30, 20, 0, 0⟩, ⟨"d", 30, 20, 0, 0⟩]]
          (initState DEFAULT_SETTINGS)).settings.layoutId).maxImages :=
  capacity_invariant _ DEFAULT_SETTINGS

/-- C4 fails on the code: with 4 images active on the 5-capacity default
layout, adding 2 successfully prepared images fills the single free slot
with the first image and drops the second one, but the released list is
empty — the dropped image is neither added nor released (resource leak).
The zero-slots branch does release, so the claim fails exactly in the
partial-fit case. -/
theorem addImages_partial_fit_leak :
    (addImagesUpdate
        [⟨"i5", 30, 20, 0, 0⟩, ⟨"i6", 30, 20, 0, 0⟩]
        ⟨[⟨"i1", 30, 20, 0, 0⟩, ⟨"i2", 30, 20, 0, 0⟩,
          ⟨"i3", 30, 20, 0, 0⟩, ⟨"i4", 30, 20, 0, 0⟩],
          DEFAULT_SETTINGS⟩).1.images.length = 5 ∧
    (addImagesUpdate
        [⟨"i5", 30, 20, 0, 0⟩, ⟨"i6", 30, 20, 0, 0⟩]
        ⟨[⟨"i1", 30, 20, 0, 0⟩, ⟨"i2", 30, 20, 0, 0⟩,
          ⟨"i3", 30, 20, 0, 0⟩, ⟨"i4", 30, 20, 0, 0⟩],
          DEFAULT_SETTINGS⟩).2 = [] ∧
    (⟨"i6", 30, 20, 0, 0⟩ : CollageImage) ∉
      (addImagesUpdate
        [⟨"i5", 30, 20, 0, 0⟩, ⟨"i6", 30, 20, 0, 0⟩]
        ⟨[⟨"i1", 30, 20, 0, 0⟩, ⟨"i2", 30, 20, 0, 0⟩,
          ⟨"i3", 30, 20, 0, 0⟩, ⟨"i4", 30, 20, 0, 0⟩],
          DEFAULT_SETTINGS⟩).1.images := by
  refine ⟨by decide, by decide, by decide⟩

/-- C8: when `updateSettings` switches to a layout whose capacity
`k = min(MAX_IMAGES, newLayout.maxImages)` is below the current image
count, the new image list is exactly the first `k` previous images in
order, and the released images are exactly the trailing `n - k`. -/
theorem updateSettings_downgrade (p : SettingsPatch) (prev : CollageState)
    (hk : min MAX_IMAGES (getLayout (mergeSettings prev.settings p).layoutId).maxImages
        < prev.images.length) :
    (updateSettingsUpdate p prev).1.images =
      prev.images.take
        (min MAX_IMAGES (getLayout (mergeSettings prev.settings p).layoutId).maxImages) ∧
    (updateSettingsUpdate p prev).2 =
      prev.images.drop
        (min MAX_IMAGES (getLayout (mergeSettings prev.settings p).layoutId).maxImages) := by
  simp only [updateSettingsUpdate, maxAllowed]
  rw [if_pos hk]
  exact ⟨rfl, rfl⟩

/-- Witness for C8: five images on the default 5-slot mosaic layout,
switching to the 2-slot `two-up` layout keeps exactly the first two images
in order and releases exactly the trailing three. -/
theorem updateSettings_downgrade_witness :
    (min MAX_IMAGES
        (getLayout (mergeSettings DEFAULT_SETTINGS
          ({ layoutId := some "two-up" } : SettingsPatch)).layoutId).maxImages
      < (⟨[⟨"i1", 30, 20, 0, 0⟩, ⟨"i2", 30, 20, 0, 0⟩,
           ⟨"i3", 30, 20, 0, 0⟩, ⟨"i4", 30, 20, 0, 0⟩,
           ⟨"i5", 30, 20, 0, 0⟩], DEFAULT_SETTINGS⟩ : CollageState).images.length) ∧
    ((updateSettingsUpdate ({ layoutId := some "two-up" } : SettingsPatch)
        ⟨[⟨"i1", 30, 20, 0, 0⟩, ⟨"i2", 30, 20, 0, 0⟩,
          ⟨"i3", 30, 20, 0, 0⟩, ⟨"i4", 30, 20, 0, 0⟩,
          ⟨"i5", 30, 20, 0, 0⟩], DEFAULT_SETTINGS⟩).1.images =
      [⟨"i1", 30, 20, 0, 0⟩, ⟨"i2", 30, 20, 0, 0⟩,
       ⟨"i3", 30, 20, 0, 0⟩, ⟨"i4", 30, 20, 0, 0⟩,
       ⟨"i5", 30, 20, 0, 0⟩].take
        (min MAX_IMAGES
          (getLayout (mergeSettings DEFAULT_SETTINGS
            ({ layoutId := some "two-up" } : SettingsPatch)).layoutId).maxImages) ∧
     (updateSettingsUpdate ({ layoutId := some "two-up" } : SettingsPatch)
        ⟨[⟨"i1", 30, 20, 0, 0⟩, ⟨"i2", 30, 20, 0, 0⟩,
          ⟨"i3", 30, 20, 0, 0⟩, ⟨"i4", 30, 20, 0, 0⟩,
          ⟨"i5", 30, 20, 0, 0⟩], DEFAULT_SETTINGS⟩).2 =
      [⟨"i1", 30, 20, 0, 0⟩, ⟨"i2", 30, 20, 0, 0⟩,
       ⟨"i3", 30, 20, 0, 0⟩, ⟨"i4", 30, 20, 0, 0⟩,
       ⟨"i5", 30, 20, 0, 0⟩].drop
        (min MAX_IMAGES
          (getLayout (mergeSettings DEFAULT_SETTINGS
            ({ layoutId := some "two-up" } : SettingsPatch)).layoutId).maxImages)) :=
  ⟨by decide, updateSettings_downgrade _ _ (by decide)⟩

/-- C10: `reorderImages` is a no-op when the indices coincide or either is
out of range; otherwise it moves exactly the element at `fromIndex` to
position `toIndex`, preserves the relative order of all other images
(removing the moved element from the result gives the original list minus
that element), and preserves the list's length and membership (the result
is a permutation of the original). -/
theorem reorder_noop_or_move (fromIndex toIndex : ℤ) (prev : CollageState) :
    ((fromIndex = toIndex ∨ fromIndex < 0 ∨ (prev.images.length : ℤ) ≤ fromIndex ∨
        toIndex < 0 ∨ (prev.images.length : ℤ) ≤ toIndex) →
      (reorderImagesUpdate fromIndex toIndex prev).1.images = prev.images) ∧
    (∀ moved : CollageImage,
      fromIndex ≠ toIndex → 0 ≤ fromIndex → fromIndex < (prev.images.length : ℤ) →
      0 ≤ toIndex → toIndex < (prev.images.length : ℤ) →
      prev.images[fromIndex.toNat]? = some moved →
      ((reorderImagesUpdate fromIndex toIndex prev).1.images[toIndex.toNat]? = some moved ∧
       (reorderImagesUpdate fromIndex toIndex prev).1.images.eraseIdx toIndex.toNat =
         prev.images.eraseIdx fromIndex.toNat ∧
       (reorderImagesUpdate fromIndex toIndex prev).1.images.length = prev.images.length ∧
       (reorderImagesUpdate fromIndex toIndex prev).1.images.Perm prev.images)) := by
  constructor
  · intro hcase
    unfold reorderImagesUpdate
    split_ifs with h1 h2 h3
    · rfl
    · rfl
    · rfl
    · exfalso
      push_neg at h2 h3
      rcases hcase with hc | hc | hc | hc | hc
      · exact h1 hc
      · exact absurd hc (by omega)
      · exact absurd hc (by omega)
      · exact absurd hc (by omega)
      · exact absurd hc (by omega)
  · intro moved hne h0f hfl h0t htl hmoved
    have hfn : fromIndex.toNat < prev.images.length := by omega
    have htn : toIndex.toNat < prev.images.length := by omega
    have hlenE : (prev.images.eraseIdx fromIndex.toNat).length + 1 = prev.images.length :=
      List.length_eraseIdx_add_one hfn
    have htle : toIndex.toNat ≤ (prev.images.eraseIdx fromIndex.toNat).length := by omega
    have hres : (reorderImagesUpdate fromIndex toIndex prev).1.images =
        (prev.images.eraseIdx fromIndex.toNat).insertIdx toIndex.toNat moved := by
      unfold reorderImagesUpdate
      rw [if_neg hne, if_neg (by push_neg; omega), if_neg (by push_neg; omega)]
      simp only [hmoved]
    have hget : prev.images[fromIndex.toNat] = moved := by
      rw [List.getElem?_eq_getElem hfn] at hmoved
      exact Option.some.inj hmoved
    have hperm_mid : prev.images.Perm (moved :: prev.images.eraseIdx fromIndex.toNat) := by
      conv_lhs => rw [← List.take_append_drop fromIndex.toNat prev.images]
      rw [← List.getElem_cons_drop prev.images fromIndex.toNat hfn, hget,
        List.eraseIdx_eq_take_drop_succ]
      exact List.perm_middle
    refine ⟨?_, ?_, ?_, ?_⟩
    · rw [hres]
      have hlt : toIndex.toNat <
          ((prev.images.eraseIdx fromIndex.toNat).insertIdx toIndex.toNat moved).length := by
        rw [List.length_insertIdx _ _ htle]
        omega
      rw [List.getElem?_eq_getElem hlt, List.getElem_insertIdx_self _ _ _ htle]
    · rw [hres, List.eraseIdx_insertIdx]
    · rw [hres, length_eraseIdx_insertIdx _ _ _ _ hfn htn]
    · rw [hres]
      exact (List.perm_insertIdx moved _ htle).trans hperm_mid.symm

/-- Witness for C10 on the concrete list `[a, b, c]`, moving index 0 to
index 2 (the result is `[b, c, a]`). -/
theorem reorder_noop_or_move_witness :
    ((0 : ℤ) ≠ 2 ∧ (0 : ℤ) ≤ 0 ∧ (0 : ℤ) < 3 ∧ (0 : ℤ) ≤ 2 ∧ (2 : ℤ) < 3) ∧
    ((reorderImagesUpdate 0 2
        ⟨[⟨"a", 30, 20, 0, 0⟩, ⟨"b", 30, 20, 0, 0⟩, ⟨"c", 30, 20, 0, 0⟩],
          DEFAULT_SETTINGS⟩).1.images[(2 : ℤ).toNat]? = some ⟨"a", 30, 20, 0, 0⟩ ∧
     (reorderImagesUpdate 0 2
        ⟨[⟨"a", 30, 20, 0, 0⟩, ⟨"b", 30, 20, 0, 0⟩, ⟨"c", 30, 20, 0, 0⟩],
          DEFAULT_SETTINGS⟩).1.images.eraseIdx (2 : ℤ).toNat =
       [⟨"a", 30, 20, 0, 0⟩, ⟨"b", 30, 20, 0, 0⟩,
        ⟨"c", 30, 20, 0, 0⟩].eraseIdx (0 : ℤ).toNat ∧
     (reorderImagesUpdate 0 2
        ⟨[⟨"a", 30, 20, 0, 0⟩, ⟨"b", 30, 20, 0, 0⟩, ⟨"c", 30, 20, 0, 0⟩],
          DEFAULT_SETTINGS⟩).1.images.length =
       [⟨"a", 30, 20, 0, 0⟩, ⟨"b", 30, 20, 0, 0⟩,
        (⟨"c", 30, 20, 0, 0⟩ : CollageImage)].length ∧
     (reorderImagesUpdate 0 2
        ⟨[⟨"a", 30, 20, 0, 0⟩, ⟨"b", 30, 20, 0, 0⟩, ⟨"c", 30, 20, 0, 0⟩],
          DEFAULT_SETTINGS⟩).1.images.Perm
       [⟨"a", 30, 20, 0, 0⟩, ⟨"b", 30, 20, 0, 0⟩, ⟨"c", 30, 20, 0, 0⟩]) :=
  ⟨⟨by decide, by decide, by decide, by decide, by decide⟩,
   (reorder_noop_or_move 0 2
      ⟨[⟨"a", 30, 20, 0, 0⟩, ⟨"b", 30, 20, 0, 0⟩, ⟨"c", 30, 20, 0, 0⟩],
        DEFAULT_SETTINGS⟩).2 ⟨"a", 30, 20, 0, 0⟩ (by decide) (by decide) (by decide)
      (by decide) (by decide) (by decide)⟩

end Collage

namespace Collage

section FocusHelpers

lemma setImageFocus_result_at (targetId : String) (fx fy : Option ℚ)
    (prev : CollageState) (i : ℕ) (target : CollageImage)
    (hfind : prev.images.findIdx (fun image => image.id == targetId) = i)
    (ht : prev.images[i]? = some target) :
    (setImageFocusUpdate targetId fx fy prev).images[i]? =
      some { target with
        focusX := match fx with | none => target.focusX | some v => clamp01 v,
        focusY := match fy with | none => target.focusY | some v => clamp01 v } := by
  have hlt : i < prev.images.length := by
    rcases List.getElem?_eq_some.mp ht with ⟨h, _⟩
    exact h
  simp only [setImageFocusUpdate, hfind, ht]
  rcases fx with _ | vx <;> rcases fy with _ | vy
  · simpa using ht
  · simp only [Option.isNone_none, Option.isNone_some, Bool.and_false, Bool.false_and,
      if_false, Bool.false_eq_true, ite_false]
    split_ifs with hchg
    · rw [show ({ target with focusY := clamp01 vy } : CollageImage) = target by
        cases target
        simp_all]
      exact ht
    · exact List.getElem?_set_self hlt
  · simp only [Option.isNone_none, Option.isNone_some, Bool.and_false, Bool.false_and,
      if_false, Bool.false_eq_true, ite_false]
    split_ifs with hchg
    · rw [show ({ target with focusX := clamp01 vx } : CollageImage) = target by
        cases target
        simp_all]
      exact ht
    · exact List.getElem?_set_self hlt
  · simp only [Option.isNone_none, Option.isNone_some, Bool.and_false, Bool.false_and,
      if_false, Bool.false_eq_true, ite_false]
    split_ifs with hchg
    · rw [show ({ target with focusX := clamp01 vx, focusY := clamp01 vy } : CollageImage)
          = target by
        cases target
        simp_all]
      exact ht
    · exact List.getElem?_set_self hlt

end FocusHelpers

/-- C7: a `setImageFocus` call on an image whose stored focus is in the
unit square leaves the targeted image with `focusX, focusY ∈ [0, 1]` for
any real-valued input (clamping out-of-range values), and an axis not
supplied keeps its previous value. -/
theorem setFocus_stores_clamped (prev : CollageState) (targetId : String)
    (fx fy : Option ℚ) (i : ℕ) (target result : CollageImage)
    (hfind : prev.images.findIdx (fun image => image.id == targetId) = i)
    (ht : prev.images[i]? = some target)
    (hx0 : 0 ≤ target.focusX) (hx1 : target.focusX ≤ 1)
    (hy0 : 0 ≤ target.focusY) (hy1 : target.focusY ≤ 1)
    (hres : (setImageFocusUpdate targetId fx fy prev).images[i]? = some result) :
    setFocusClaim fx fy target result := by
  have h := setImageFocus_result_at targetId fx fy prev i target hfind ht
  rw [hres] at h
  have hr := Option.some.inj h
  subst hr
  unfold setFocusClaim
  rcases fx with _ | vx <;> rcases fy with _ | vy
  · exact ⟨⟨hx0, hx1⟩, ⟨hy0, hy1⟩, fun _ => rfl, fun _ => rfl⟩
  · exact ⟨⟨hx0, hx1⟩, ⟨clamp01_nonneg vy, clamp01_le_one vy⟩, fun _ => rfl,
      fun hc => (Option.some_ne_none vy hc).elim⟩
  · exact ⟨⟨clamp01_nonneg vx, clamp01_le_one vx⟩, ⟨hy0, hy1⟩,
      fun hc => (Option.some_ne_none vx hc).elim, fun _ => rfl⟩
  · exact ⟨⟨clamp01_nonneg vx, clamp01_le_one vx⟩,
      ⟨clamp01_nonneg vy, clamp01_le_one vy⟩,
      fun hc => (Option.some_ne_none vx hc).elim,
      fun hc => (Option.some_ne_none vy hc).elim⟩

/-- Witness for C7: updating image `a` (stored focus `(0, 1)`) with
`focusX = 7` and no `focusY` stores the clamped focus `(1, 1)`. -/
theorem setFocus_stores_clamped_witness :
    (([⟨"a", 100, 100, 0, 1⟩] : List CollageImage).findIdx
        (fun image => image.id == "a") = 0 ∧
      (⟨[⟨"a", 100, 100, 0, 1⟩], DEFAULT_SETTINGS⟩ : CollageState).images[0]? =
        some ⟨"a", 100, 100, 0, 1⟩ ∧
      (setImageFocusUpdate "a" (some 7) none
        ⟨[⟨"a", 100, 100, 0, 1⟩], DEFAULT_SETTINGS⟩).images[0]? =
        some ⟨"a", 100, 100, 1, 1⟩) ∧
    setFocusClaim (some 7) none ⟨"a", 100, 100, 0, 1⟩ ⟨"a", 100, 100, 1, 1⟩ := by
  have hclamp : clamp01 7 = 1 := by norm_num [clamp01]
  have hres : (setImageFocusUpdate "a" (some 7) none
      ⟨[⟨"a", 100, 100, 0, 1⟩], DEFAULT_SETTINGS⟩).images[0]? =
      some ⟨"a", 100, 100, 1, 1⟩ := by
    have h := setImageFocus_result_at "a" (some 7) none
      ⟨[⟨"a", 100, 100, 0, 1⟩], DEFAULT_SETTINGS⟩ 0 ⟨"a", 100, 100, 0, 1⟩ rfl rfl
    rw [h]
    simp [hclamp]
  exact ⟨⟨rfl, rfl, hres⟩,
    setFocus_stores_clamped ⟨[⟨"a", 100, 100, 0, 1⟩], DEFAULT_SETTINGS⟩ "a"
      (some 7) none 0 ⟨"a", 100, 100, 0, 1⟩ ⟨"a", 100, 100, 1, 1⟩ rfl rfl
      (by norm_num) (by norm_num) (by norm_num) (by norm_num) hres⟩

/-- C6: during a focal-point drag, a pointer-move with deltas
`(deltaX, deltaY)` stores `clamp01(startFocus + delta / overflow)` on each
axis whose overflow is strictly positive, leaves each zero-overflow axis
unchanged, and when both overflows are zero (image already fits its cell)
any sequence of drag deltas leaves the focus at its pre-drag value. -/
theorem pointerMove_per_axis (st : DragState) (dX dY : ℚ) (prev : CollageState)
    (i : ℕ) (target result : CollageImage)
    (hfind : prev.images.findIdx (fun image => image.id == st.imageId) = i)
    (ht : prev.images[i]? = some target)
    (hres : (handlePointerMove st dX dY prev).images[i]? = some result) :
    pointerMoveClaim st dX dY prev target result := by
  have hox : 0 ≤ overflowX st := le_max_left 0 _
  have hoy : 0 ≤ overflowY st := le_max_left 0 _
  have hid : overflowX st = 0 → overflowY st = 0 →
      ∀ (a b : ℚ) (s : CollageState), handlePointerMove st a b s = s := by
    intro hx0 hy0 a b s
    simp [handlePointerMove, hx0, hy0]
  unfold pointerMoveClaim
  rcases lt_or_eq_of_le hox with hx | hx <;> rcases lt_or_eq_of_le hoy with hy | hy
  · -- both overflows positive
    have hmove : handlePointerMove st dX dY prev =
        setImageFocusUpdate st.imageId
          (some (clamp01 (st.startFocusX + dX / overflowX st)))
          (some (clamp01 (st.startFocusY + dY / overflowY st))) prev := by
      simp [handlePointerMove, hx, hy]
    rw [hmove] at hres
    have h := setImageFocus_result_at st.imageId
      (some (clamp01 (st.startFocusX + dX / overflowX st)))
      (some (clamp01 (st.startFocusY + dY / overflowY st))) prev i target hfind ht
    rw [hres] at h
    have hr := Option.some.inj h
    subst hr
    refine ⟨fun _ => ?_, fun h0 => absurd h0.symm (ne_of_lt hx), fun _ => ?_,
      fun h0 => absurd h0.symm (ne_of_lt hy), fun h0 _ => absurd h0.symm (ne_of_lt hx)⟩
    · exact clamp01_idem _
    · exact clamp01_idem _
  · -- overflowX positive, overflowY zero
    have hmove : handlePointerMove st dX dY prev =
        setImageFocusUpdate st.imageId
          (some (clamp01 (st.startFocusX + dX / overflowX st))) none prev := by
      have hyneg : ¬ 0 < overflowY st := by rw [← hy]; exact lt_irrefl 0
      simp [handlePointerMove, hx, hyneg]
    rw [hmove] at hres
    have h := setImageFocus_result_at st.imageId
      (some (clamp01 (st.startFocusX + dX / overflowX st))) none prev i target hfind ht
    rw [hres] at h
    have hr := Option.some.inj h
    subst hr
    refine ⟨fun _ => ?_, fun h0 => absurd h0.symm (ne_of_lt hx), fun hy' => absurd hy'
      (by rw [← hy]; exact lt_irrefl 0), fun _ => rfl,
      fun h0 _ => absurd h0.symm (ne_of_lt hx)⟩
    exact clamp01_idem _
  · -- overflowX zero, overflowY positive
    have hmove : handlePointerMove st dX dY prev =
        setImageFocusUpdate st.imageId none
          (some (clamp01 (st.startFocusY + dY / overflowY st))) prev := by
      have hxneg : ¬ 0 < overflowX st := by rw [← hx]; exact lt_irrefl 0
      simp [handlePointerMove, hxneg, hy]
    rw [hmove] at hres
    have h := setImageFocus_result_at st.imageId none
      (some (clamp01 (st.startFocusY + dY / overflowY st))) prev i target hfind ht
    rw [hres] at h
    have hr := Option.some.inj h
    subst hr
    refine ⟨fun hx' => absurd hx' (by rw [← hx]; exact lt_irrefl 0), fun _ => rfl,
      fun _ => ?_, fun h0 => absurd h0.symm (ne_of_lt hy),
      fun _ h0 => absurd h0.symm (ne_of_lt hy)⟩
    exact clamp01_idem _
  · -- both overflows zero: the move is the identity
    rw [hid hx.symm hy.symm dX dY prev] at hres
    rw [ht] at hres
    have hr := Option.some.inj hres
    subst hr
    refine ⟨fun hx' => absurd hx' (by rw [← hx]; exact lt_irrefl 0), fun _ => rfl,
      fun hy' => absurd hy' (by rw [← hy]; exact lt_irrefl 0), fun _ => rfl,
      fun _ _ deltas => ?_⟩
    induction deltas with
    | nil => rfl
    | cons d ds ih =>
        rw [List.foldl_cons, hid hx.symm hy.symm d.1 d.2, ih]

/-- Witness for C6: slot 80 times 40 with a 100 times 100 image has zero
horizontal overflow and vertical overflow 40; the pointer-move
`(5, 10)` from start focus `(0, 0)` stores focus `(0, 1/4)`. -/
theorem pointerMove_per_axis_witness :
    (([⟨"a", 100, 100, 0, 0⟩] : List CollageImage).findIdx
        (fun image => image.id == "a") = 0 ∧
      (⟨[⟨"a", 100, 100, 0, 0⟩], DEFAULT_SETTINGS⟩ : CollageState).images[0]? =
        some ⟨"a", 100, 100, 0, 0⟩ ∧
      (handlePointerMove ⟨"a", 0, 0, 80, 40, 100, 100⟩ 5 10
        ⟨[⟨"a", 100, 100, 0, 0⟩], DEFAULT_SETTINGS⟩).images[0]? =
        some ⟨"a", 100, 100, 0, 1/4⟩) ∧
    pointerMoveClaim ⟨"a", 0, 0, 80, 40, 100, 100⟩ 5 10
      ⟨[⟨"a", 100, 100, 0, 0⟩], DEFAULT_SETTINGS⟩
      ⟨"a", 100, 100, 0, 0⟩ ⟨"a", 100, 100, 0, 1/4⟩ := by
  have hx : overflowX ⟨"a", 0, 0, 80, 40, 100, 100⟩ = 0 := by
    norm_num [overflowX, dragScale]
  have hy : overflowY ⟨"a", 0, 0, 80, 40, 100, 100⟩ = 40 := by
    norm_num [overflowY, dragScale]
  have hxneg : ¬ 0 < overflowX ⟨"a", 0, 0, 80, 40, 100, 100⟩ := by
    rw [hx]
    exact lt_irrefl 0
  have hypos : 0 < overflowY ⟨"a", 0, 0, 80, 40, 100, 100⟩ := by
    rw [hy]
    norm_num
  have hmove : handlePointerMove ⟨"a", 0, 0, 80, 40, 100, 100⟩ 5 10
      ⟨[⟨"a", 100, 100, 0, 0⟩], DEFAULT_SETTINGS⟩ =
      setImageFocusUpdate "a" none (some (clamp01 (0 + 10 / 40)))
        ⟨[⟨"a", 100, 100, 0, 0⟩], DEFAULT_SETTINGS⟩ := by
    simp [handlePointerMove, hxneg, hypos, hy]
  have hres : (handlePointerMove ⟨"a", 0, 0, 80, 40, 100, 100⟩ 5 10
      ⟨[⟨"a", 100, 100, 0, 0⟩], DEFAULT_SETTINGS⟩).images[0]? =
      some ⟨"a", 100, 100, 0, 1/4⟩ := by
    rw [hmove]
    have h := setImageFocus_result_at "a" none (some (clamp01 (0 + 10 / 40)))
      ⟨[⟨"a", 100, 100, 0, 0⟩], DEFAULT_SETTINGS⟩ 0 ⟨"a", 100, 100, 0, 0⟩ rfl rfl
    rw [h]
    simp [clamp01_idem]
    norm_num [clamp01]
  exact ⟨⟨rfl, rfl, hres⟩,
    pointerMove_per_axis ⟨"a", 0, 0, 80, 40, 100, 100⟩ 5 10
      ⟨[⟨"a", 100, 100, 0, 0⟩], DEFAULT_SETTINGS⟩ 0
      ⟨"a", 100, 100, 0, 0⟩ ⟨"a", 100, 100, 0, 1/4⟩ rfl rfl hres⟩

end Collage
